import Mathlib

/-!
# Magna: the employee-profile CRUD program and the call-by-value / call-by-reference demo

Shallow embedding of `crud_operations.go` (the four menu operations over the
collections Employee, Department, Developer and Tester) and of
`callby_function.go`.

The database server and its Go driver are external to the repository.  They are
modelled by the small `Database.*` / `aggregate` layer below: a collection is the
list of its documents in insertion order, `InsertOne` appends, `DeleteOne` and
`UpdateOne` act on the first document matching the filter, and a `$lookup` stage
attaches the matching documents of the foreign collection.  Every driver call
takes a flag saying whether that call fails; a failed call changes nothing and
returns an error.

The program only ever writes marshalled struct values into its collections (and
drops them at start-up), so a collection is kept as the list of struct values
and is marshalled to documents by the `bson` tags whenever a filter or the
aggregation pipeline inspects it.  The `_id` the driver adds on insert is not
kept: no filter, update or decode of the program mentions it.

Values scanned from the terminal are parameters of the operations.
-/

namespace Magna

/-! ## Data model (`crud_operations.go`, lines 15-50) -/

/-- A Go `float64`, kept as its IEEE-754 bit pattern: the programs only store and copy it. -/
structure Float64 where
  bits : Nat
deriving DecidableEq

/-- Whether a `float64` is a finite number: its exponent field (bits 52 to 62)
is not all ones, that is, it is neither an infinity nor a NaN. -/
def Float64.isFinite (f : Float64) : Bool :=
  (f.bits / 2 ^ 52) % 2 ^ 11 != 2047

/-- Employee document: `type Employee struct`. -/
structure Employee where
  ID : Int
  Name : String
  Salary : Float64
deriving DecidableEq

/-- Department document: `type Department struct`. -/
structure Department where
  Name : String
  EmpID : Int
deriving DecidableEq

/-- Developer document: `type Developer struct`. -/
structure Developer where
  Language : String
  EmpID : Int
deriving DecidableEq

/-- Tester document: `type Tester struct`. -/
structure Tester where
  Language : String
  EmpID : Int
deriving DecidableEq

/-- Aggregated result with JOIN: `type EmployeeFull struct`. -/
structure EmployeeFull where
  ID : Int
  Name : String
  Salary : Float64
  Departments : List Department
  Developers : List Developer
  Testers : List Tester
deriving DecidableEq

/-! ## Documents and marshalling by `bson` tag -/

/-- Scalar field values that occur in the program's documents. -/
inductive Scalar
  | int (i : Int)
  | str (s : String)
  | dbl (f : Float64)
deriving DecidableEq

/-- A stored (flat) document: field name and value, in field order. -/
abbrev Doc := List (String × Scalar)

/-- A field of a document travelling through the aggregation pipeline. -/
inductive Field
  | val (s : Scalar)
  | arr (ds : List Doc)
deriving DecidableEq

/-- A document inside the aggregation pipeline (it may carry joined arrays). -/
abbrev AggDoc := List (String × Field)

/-- Marshal an `Employee` by its tags `id`, `name`, `salary`. -/
def Employee.toDoc (e : Employee) : Doc :=
  [("id", .int e.ID), ("name", .str e.Name), ("salary", .dbl e.Salary)]

/-- Marshal a `Department` by its tags `name`, `emp_id`. -/
def Department.toDoc (d : Department) : Doc :=
  [("name", .str d.Name), ("emp_id", .int d.EmpID)]

/-- Marshal a `Developer` by its tags `language`, `emp_id`. -/
def Developer.toDoc (d : Developer) : Doc :=
  [("language", .str d.Language), ("emp_id", .int d.EmpID)]

/-- Marshal a `Tester` by its tags `language`, `emp_id`. -/
def Tester.toDoc (t : Tester) : Doc :=
  [("language", .str t.Language), ("emp_id", .int t.EmpID)]

/-- Decode an `int` field: an absent field leaves the zero value, a field of
another kind is a decode error. -/
def decodeInt : Option Scalar → Option Int
  | none => some 0
  | some (.int i) => some i
  | some _ => none

/-- Decode a `string` field. -/
def decodeStr : Option Scalar → Option String
  | none => some ""
  | some (.str s) => some s
  | some _ => none

/-- Decode a `float64` field. -/
def decodeDbl : Option Scalar → Option Float64
  | none => some ⟨0⟩
  | some (.dbl f) => some f
  | some _ => none

/-- The scalar under a key of a pipeline document (`none` when absent or an array). -/
def AggDoc.scalar (d : AggDoc) (k : String) : Option Scalar :=
  match d.lookup k with
  | some (.val s) => some s
  | _ => none

/-- Decode every element of an array, failing when one element fails. -/
def decodeEach {α : Type} (f : Doc → Option α) : List Doc → Option (List α)
  | [] => some []
  | d :: ds =>
    match f d, decodeEach f ds with
    | some a, some as => some (a :: as)
    | _, _ => none

/-- Decode an array field: absent leaves the nil slice, a scalar is a decode error. -/
def decodeArr {α : Type} (f : Doc → Option α) : Option Field → Option (List α)
  | none => some []
  | some (.arr ds) => decodeEach f ds
  | some (.val _) => none

/-- Decode a `Department` (fields without a tag in the struct are ignored). -/
def Department.ofDoc (d : Doc) : Option Department :=
  match decodeStr (d.lookup "name"), decodeInt (d.lookup "emp_id") with
  | some n, some i => some { Name := n, EmpID := i }
  | _, _ => none

/-- Decode a `Developer`. -/
def Developer.ofDoc (d : Doc) : Option Developer :=
  match decodeStr (d.lookup "language"), decodeInt (d.lookup "emp_id") with
  | some l, some i => some { Language := l, EmpID := i }
  | _, _ => none

/-- Decode a `Tester`. -/
def Tester.ofDoc (d : Doc) : Option Tester :=
  match decodeStr (d.lookup "language"), decodeInt (d.lookup "emp_id") with
  | some l, some i => some { Language := l, EmpID := i }
  | _, _ => none

/-- Scalar part of a pipeline field, for decoding (`none` when absent). -/
def AggDoc.field (d : AggDoc) (k : String) : Option (Option Scalar) :=
  match d.lookup k with
  | none => some none
  | some (.val s) => some (some s)
  | some (.arr _) => none

/-- Decoding of `cursor.Decode(&emp)` into an `EmployeeFull`, by the tags `id`,
`name`, `salary`, `department_info`, `developer_info`, `tester_info`. -/
def EmployeeFull.ofAggDoc (d : AggDoc) : Option EmployeeFull :=
  match d.field "id", d.field "name", d.field "salary" with
  | some i, some n, some s =>
    match decodeInt i, decodeStr n, decodeDbl s,
          decodeArr Department.ofDoc (d.lookup "department_info"),
          decodeArr Developer.ofDoc (d.lookup "developer_info"),
          decodeArr Tester.ofDoc (d.lookup "tester_info") with
    | some id, some name, some sal, some deps, some devs, some tes =>
      some { ID := id, Name := name, Salary := sal,
             Departments := deps, Developers := devs, Testers := tes }
    | _, _, _, _, _, _ => none
  | _, _, _ => none

/-! ## The store and the driver calls -/

/-- The four collections the program opens with `db.Collection(...)`. -/
inductive Coll
  | employee
  | department
  | developer
  | tester
deriving DecidableEq

/-- The collection name passed to `db.Collection`. -/
def Coll.name : Coll → String
  | .employee => "Employee"
  | .department => "Department"
  | .developer => "Developer"
  | .tester => "Tester"

/-- The struct type whose marshalled values a collection holds. -/
abbrev Coll.Rec : Coll → Type
  | .employee => Magna.Employee
  | .department => Magna.Department
  | .developer => Magna.Developer
  | .tester => Magna.Tester

/-- Marshalling of the records of a collection. -/
def Coll.toDoc : (c : Coll) → c.Rec → Doc
  | .employee => Employee.toDoc
  | .department => Department.toDoc
  | .developer => Developer.toDoc
  | .tester => Tester.toDoc

/-- State of the database `unified_demo`: each collection in insertion order. -/
structure Database where
  employees : List Employee
  departments : List Department
  developers : List Developer
  testers : List Tester
deriving DecidableEq

/-- The database with all four collections empty. -/
def Database.empty : Database :=
  { employees := [], departments := [], developers := [], testers := [] }

/-- Content of a collection. -/
def Database.get (db : Database) : (c : Coll) → List c.Rec
  | .employee => db.employees
  | .department => db.departments
  | .developer => db.developers
  | .tester => db.testers

/-- Replace the content of a collection. -/
def Database.set (db : Database) : (c : Coll) → List c.Rec → Database
  | .employee, l => { db with employees := l }
  | .department, l => { db with departments := l }
  | .developer, l => { db with developers := l }
  | .tester, l => { db with testers := l }

/-- The documents of a collection as the server sees them. -/
def Database.docs (db : Database) (c : Coll) : List Doc :=
  (db.get c).map c.toDoc

/-- A filter `bson.M{key: value}` with an integer value. -/
structure Filter where
  key : String
  value : Int
deriving DecidableEq

/-- A document matches `{key: value}` when it has the field with that integer
value (the filtered keys `id` and `emp_id` never hold a double). -/
def Filter.matches (f : Filter) (d : Doc) : Bool :=
  d.lookup f.key == some (Scalar.int f.value)

/-- Driver call `Collection(c).InsertOne(ctx, r)`: the new state and whether an
error came back. -/
def Database.insertOne (db : Database) (fail : Bool) (c : Coll) (r : c.Rec) : Database × Bool :=
  if fail then (db, true) else (db.set c (db.get c ++ [r]), false)

/-- Driver call `Collection(c).DeleteOne(ctx, filter)`: removes the first
matching document, if any. -/
def Database.deleteOne (db : Database) (fail : Bool) (c : Coll) (f : Filter) : Database × Bool :=
  if fail then (db, true)
  else (db.set c ((db.get c).eraseP (fun r => f.matches (c.toDoc r))), false)

/-- Effect of `$set` with the fields of `upd` on an employee document; only
`name` (string) and `salary` (double) are ever set by the program. -/
def Employee.applySet (e : Employee) (upd : Doc) : Employee :=
  { ID := e.ID
    Name := match upd.lookup "name" with
      | some (.str s) => s
      | _ => e.Name
    Salary := match upd.lookup "salary" with
      | some (.dbl f) => f
      | _ => e.Salary }

/-- Apply `g` to the first element satisfying `p`. -/
def updateFirst {α : Type} (p : α → Bool) (g : α → α) : List α → List α
  | [] => []
  | a :: l => if p a then g a :: l else a :: updateFirst p g l

/-- Driver call `Collection("Employee").UpdateOne(ctx, filter, {"$set": upd})`:
updates the first matching document; no match is not an error (no upsert). -/
def Database.updateOneEmployee (db : Database) (fail : Bool) (f : Filter) (upd : Doc) :
    Database × Bool :=
  if fail then (db, true)
  else ({ db with employees :=
            updateFirst (fun e => f.matches e.toDoc) (fun e => e.applySet upd) db.employees },
        false)

/-- One `$lookup` stage of the pipeline. -/
structure Lookup where
  frm : Coll
  localField : String
  foreignField : String
  asField : String
deriving DecidableEq

/-- Set a field of a pipeline document (replace it when present, else append). -/
def AggDoc.setField (k : String) (v : Field) : AggDoc → AggDoc
  | [] => [(k, v)]
  | (k', v') :: d => if k' = k then (k, v) :: d else (k', v') :: AggDoc.setField k v d

/-- Run one `$lookup` stage: every input document gets, under `asField`, the
documents of `frm` whose `foreignField` equals its `localField` (a missing
field on both sides compares equal, as null does on the server; the local
field of the program's stages is the scalar `id`). -/
def Lookup.run (db : Database) (st : Lookup) (ds : List AggDoc) : List AggDoc :=
  ds.map fun d =>
    AggDoc.setField st.asField
      (Field.arr ((db.docs st.frm).filter fun f => f.lookup st.foreignField == d.scalar st.localField))
      d

/-- Driver call `Collection(c).Aggregate(ctx, pipeline)`: `none` is the error
return, otherwise the documents the cursor will yield. -/
def aggregate (db : Database) (fail : Bool) (c : Coll) (p : List Lookup) : Option (List AggDoc) :=
  if fail then none
  else some (p.foldl (fun ds st => st.run db ds)
              ((db.docs c).map fun d => d.map fun kv => (kv.1, Field.val kv.2)))

/-! ## The four operations (`crud_operations.go`, lines 74-184) -/

/-- A driver call issued by an operation. -/
structure Call where
  op : String
  coll : Coll
deriving DecidableEq

/-- What an operation leaves behind: the store, the driver calls it issued in
order, the lines it printed or logged, and whether it ended in `log.Fatal`. -/
structure Outcome where
  db : Database
  calls : List Call
  out : List String
  fatal : Bool
deriving DecidableEq

/-- Insert new employee (with dept/dev/tester): `insertEmployee`.  `fail c`
says whether the `InsertOne` on collection `c` fails; both results of every
`InsertOne` are discarded. -/
def insertEmployee (fail : Coll → Bool) (db : Database) (id : Int) (name : String)
    (salary : Float64) (deptName devLanguage testerLanguage : String) : Outcome :=
  let emp : Employee := { ID := id, Name := name, Salary := salary }
  let dept : Department := { Name := deptName, EmpID := emp.ID }
  let dev : Developer := { Language := devLanguage, EmpID := emp.ID }
  let tester : Tester := { Language := testerLanguage, EmpID := emp.ID }
  let db1 := (db.insertOne (fail .employee) .employee emp).1
  let db2 := (db1.insertOne (fail .department) .department dept).1
  let db3 := (db2.insertOne (fail .developer) .developer dev).1
  let db4 := (db3.insertOne (fail .tester) .tester tester).1
  { db := db4
    calls := [⟨"InsertOne", .employee⟩, ⟨"InsertOne", .department⟩,
              ⟨"InsertOne", .developer⟩, ⟨"InsertOne", .tester⟩]
    out := ["✅ Employee inserted successfully"]
    fatal := false }

/-- Update employee (only name & salary here): `updateEmployee`. -/
def updateEmployee (fail : Bool) (db : Database) (empID : Int) (newName : String)
    (newSalary : Float64) : Outcome :=
  let filter : Filter := { key := "id", value := empID }
  let update : Doc := [("name", .str newName), ("salary", .dbl newSalary)]
  let r := db.updateOneEmployee fail filter update
  { db := r.1
    calls := [⟨"UpdateOne", .employee⟩]
    out := if r.2 then ["❌ Update failed"] else ["✅ Employee updated successfully"]
    fatal := false }

/-- The slice `collections` of `deleteEmployee`. -/
def collections : List Coll := [.employee, .department, .developer, .tester]

/-- Body of the `for _, coll := range collections` loop of `deleteEmployee`. -/
def deleteStep (fail : Coll → String → Bool) (empID : Int) (acc : Database × List Call)
    (coll : Coll) : Database × List Call :=
  let d1 := (acc.1.deleteOne (fail coll "emp_id") coll { key := "emp_id", value := empID }).1
  let d2 := (d1.deleteOne (fail coll "id") coll { key := "id", value := empID }).1
  (d2, acc.2 ++ [⟨"DeleteOne", coll⟩, ⟨"DeleteOne", coll⟩])

/-- Delete employee (cascade delete across collections): `deleteEmployee`.
`fail c k` says whether the `DeleteOne` on collection `c` with filter key `k`
fails; both results of every `DeleteOne` are discarded. -/
def deleteEmployee (fail : Coll → String → Bool) (db : Database) (empID : Int) : Outcome :=
  let r := collections.foldl (deleteStep fail empID) (db, [])
  { db := r.1
    calls := r.2
    out := ["✅ Employee deleted successfully"]
    fatal := false }

/-- The `mongo.Pipeline` literal of `readEmployeesWithJoin`. -/
def pipeline : List Lookup :=
  [ { frm := .department, localField := "id", foreignField := "emp_id",
      asField := "department_info" },
    { frm := .developer, localField := "id", foreignField := "emp_id",
      asField := "developer_info" },
    { frm := .tester, localField := "id", foreignField := "emp_id",
      asField := "tester_info" } ]

/-- Whether `json.MarshalIndent(emp, "", "  ")` succeeds: the encoder rejects a
`float64` that is an infinity or a NaN; integers, strings and slices of the
sub-record structs are always encoded. -/
def jsonEncodable (emp : EmployeeFull) : Bool :=
  emp.Salary.isFinite

/-- What `readEmployeesWithJoin` leaves behind: the profiles it printed (one
JSON text each, in cursor order), its other output lines, and whether it ended
in `log.Fatal`.  The store is not written. -/
structure ReadOutcome where
  profiles : List EmployeeFull
  out : List String
  fatal : Bool
deriving DecidableEq

/-- The `for cursor.Next(ctx)` loop: a document that fails to decode is logged
and skipped; the error of `json.MarshalIndent` is discarded, so for a profile
that cannot be encoded `jsonData` is nil and an empty line is printed in place
of the profile. -/
def readLoop : List AggDoc → List EmployeeFull × List String
  | [] => ([], [])
  | d :: ds =>
    let r := readLoop ds
    match EmployeeFull.ofAggDoc d with
    | none => (r.1, "Decode failed" :: r.2)
    | some emp => if jsonEncodable emp then (emp :: r.1, r.2) else (r.1, "" :: r.2)

/-- Read with `$lookup` JOIN: `readEmployeesWithJoin`.  `fail` says whether
`Aggregate` returns an error. -/
def readEmployeesWithJoin (fail : Bool) (db : Database) : ReadOutcome :=
  match aggregate db fail .employee pipeline with
  | none => { profiles := [], out := ["Aggregation failed"], fatal := true }
  | some cursor =>
    let r := readLoop cursor
    { profiles := r.1
      out := "\n=== Employee Records with Full Details ===" :: r.2
      fatal := false }

/-- Driver behaviour in which no call fails (insert oracle). -/
def noFail : Coll → Bool := fun _ => false

/-- Driver behaviour in which no `DeleteOne` fails. -/
def noDeleteFail : Coll → String → Bool := fun _ _ => false

/-- The database right after `loadSampleData` (lines 187-222): the four
collections are dropped and three records are inserted into each. -/
def loadSampleData : Database :=
  { employees := [ { ID := 1, Name := "Alice", Salary := ⟨0x40e86a0000000000⟩ },
                   { ID := 2, Name := "Bob", Salary := ⟨0x40ed4c0000000000⟩ },
                   { ID := 3, Name := "Charlie", Salary := ⟨0x40eadb0000000000⟩ } ]
    departments := [ { Name := "IT", EmpID := 1 }, { Name := "HR", EmpID := 2 },
                     { Name := "Finance", EmpID := 3 } ]
    developers := [ { Language := "Go", EmpID := 1 }, { Language := "Python", EmpID := 2 },
                    { Language := "Java", EmpID := 3 } ]
    testers := [ { Language := "JavaScript", EmpID := 1 }, { Language := "Ruby", EmpID := 2 },
                 { Language := "C#", EmpID := 3 } ] }

/-- The `float64` NaN that `fmt.Scan` gives for the input `NaN`. -/
def nan : Float64 := ⟨0x7ff8000000000001⟩

/-- The `float64` positive infinity that `fmt.Scan` gives for the input `Inf`. -/
def posInf : Float64 := ⟨0x7ff0000000000000⟩

/-- A store the program reaches from its start-up state by one more insert with
the employee id 1, which `loadSampleData` has already used. -/
def duplicateStore : Database :=
  (insertEmployee noFail loadSampleData 1 "Alan" ⟨0x40e86a0000000000⟩ "Ops" "Rust" "Perl").db

/-! ## `callby_function.go` -/

/-- Staff record: `type Staff struct`. -/
structure Staff where
  ID : Int
  FullName : String
  Pay : Float64
deriving DecidableEq

/-- The `float64` constant `9999.99`. -/
def pay_9999_99 : Float64 := ⟨0x40c387feb851eb85⟩

/-- The `float64` constant `8888.88`. -/
def pay_8888_88 : Float64 := ⟨0x40c15c70a3d70a3d⟩

/-- The `float64` constant `7777.77`. -/
def pay_7777_77 : Float64 := ⟨0x40be61c51eb851ec⟩

/-- Memory of the running program: the array variables allocated so far,
addressed by their position. -/
abbrev Heap := List (List Staff)

/-- Allocate a new array variable holding a copy of `v`; returns its address. -/
def Heap.alloc (h : Heap) (v : List Staff) : Heap × Nat :=
  (h ++ [v], h.length)

/-- Read the whole array at an address. -/
def Heap.load (h : Heap) (a : Nat) : Option (List Staff) :=
  h.get? a

/-- Assignment to a field of element `i` of the array at address `a`; `none`
is the run-time panic on an index out of range. -/
def Heap.store (h : Heap) (a i : Nat) (f : Staff → Staff) : Option Heap :=
  match h.get? a with
  | none => none
  | some cell =>
    match cell.get? i with
    | none => none
    | some s => some (h.set a (cell.set i (f s)))

/-- A slice header: address of the backing array, first index and length. -/
structure Slice where
  array : Nat
  low : Nat
  len : Nat
deriving DecidableEq

/-- Assignment through a slice, with the bound check against the slice length. -/
def Slice.store (h : Heap) (s : Slice) (i : Nat) (f : Staff → Staff) : Option Heap :=
  if i < s.len then h.store s.array (s.low + i) f else none

/-- Function demonstrating pass by value: `CallByValue`.  The parameter
`staffList` is a fresh array variable initialised with the argument value. -/
def CallByValue (h : Heap) (arg : List Staff) : Option Heap :=
  let (h0, staffList) := h.alloc arg
  match h0.store staffList 0 (fun s => { s with ID := 1111 }) with
  | none => none
  | some h1 =>
    match h1.store staffList 1 (fun s => { s with FullName := "Updated Name" }) with
    | none => none
    | some h2 => h2.store staffList 2 (fun s => { s with Pay := pay_9999_99 })

/-- Function demonstrating pass by reference: `CallByReference`.  The argument
is the slice header the pointer refers to; the function only writes through it. -/
def CallByReference (h : Heap) (staffSlice : Slice) : Option Heap :=
  match staffSlice.store h 0 (fun s => { s with ID := 2222 }) with
  | none => none
  | some h1 =>
    match staffSlice.store h1 1 (fun s => { s with FullName := "Modified Person" }) with
    | none => none
    | some h2 =>
      match staffSlice.store h2 2 (fun s => { s with Pay := pay_8888_88 }) with
      | none => none
      | some h3 => staffSlice.store h3 3 (fun s => { s with Pay := pay_7777_77 })

/-- Reusable print function `DisplayStaff`: it receives a copy of the array; the
model records the title and the values it prints. -/
def DisplayStaff (title : String) (staffArr : List Staff) : String × List Staff :=
  (title, staffArr)

/-- What `main` leaves behind: the final content of `team` and what the three
`DisplayStaff` calls were given. -/
structure MainResult where
  team : List Staff
  shown : List (String × List Staff)
deriving DecidableEq

/-- The statements of `main` (lines 44-55) for an initial content of the array
`team`; `none` is a run-time panic. -/
def mainFrom (init : List Staff) : Option MainResult :=
  let (h0, team) := Heap.alloc [] init
  match h0.load team with
  | none => none
  | some t0 =>
    let d1 := DisplayStaff "Before CallByValue:" t0
    match CallByValue h0 t0 with
    | none => none
    | some h1 =>
      match h1.load team with
      | none => none
      | some t1 =>
        let d2 := DisplayStaff "After CallByValue (No Change Expected):" t1
        let teamSlice : Slice := { array := team, low := 0, len := 4 }
        match CallByReference h1 teamSlice with
        | none => none
        | some h2 =>
          match h2.load team with
          | none => none
          | some t2 =>
            let d3 := DisplayStaff "After CallByReference (Changes Reflected):" t2
            some { team := t2, shown := [d1, d2, d3] }

/-- The array literal `team` of `main` (lines 37-42). -/
def team : List Staff :=
  [ { ID := 1001, FullName := "Alice", Pay := ⟨0x40b3880000000000⟩ },
    { ID := 1002, FullName := "Bob", Pay := ⟨0x40b7700000000000⟩ },
    { ID := 1003, FullName := "Charlie", Pay := ⟨0x40bb580000000000⟩ },
    { ID := 1004, FullName := "Diana", Pay := ⟨0x40bf400000000000⟩ } ]

/-- The program `main` of `callby_function.go`. -/
def main : Option MainResult := mainFrom team

/-! ## The join in the words of the specification -/

/-- The profile of one employee record in a left outer join on the employee id:
the record's own fields plus the records of the three other collections whose
`emp_id` equals the employee's `id`. -/
def joinProfile (db : Database) (e : Employee) : EmployeeFull :=
  { ID := e.ID, Name := e.Name, Salary := e.Salary
    Departments := db.departments.filter (fun d => decide (d.EmpID = e.ID))
    Developers := db.developers.filter (fun d => decide (d.EmpID = e.ID))
    Testers := db.testers.filter (fun t => decide (t.EmpID = e.ID)) }

/-- The document the cursor yields for one employee record. -/
def joinedDoc (db : Database) (e : Employee) : AggDoc :=
  [("id", .val (.int e.ID)), ("name", .val (.str e.Name)), ("salary", .val (.dbl e.Salary)),
   ("department_info",
      .arr ((db.departments.filter (fun d => decide (d.EmpID = e.ID))).map Department.toDoc)),
   ("developer_info",
      .arr ((db.developers.filter (fun d => decide (d.EmpID = e.ID))).map Developer.toDoc)),
   ("tester_info",
      .arr ((db.testers.filter (fun t => decide (t.EmpID = e.ID))).map Tester.toDoc))]

/-- List `after` is list `before` without its first element satisfying `p`, or
`before` itself when no element satisfies `p`. -/
def RemovesFirst {α : Type} (p : α → Prop) (before after : List α) : Prop :=
  (∃ pre r post, before = pre ++ r :: post ∧ p r ∧ (∀ x ∈ pre, ¬ p x) ∧ after = pre ++ post)
    ∨ ((∀ x ∈ before, ¬ p x) ∧ after = before)

/-! ## Lemmas on documents, filters and the pipeline -/

theorem scalar_int_beq (a b : Int) : (Scalar.int a == Scalar.int b) = decide (a = b) := by
  by_cases h : a = b <;> simp [h]

theorem some_int_beq (a b : Int) :
    (some (Scalar.int a) == some (Scalar.int b)) = decide (a = b) := by
  by_cases h : a = b <;> simp [h]

theorem matches_id_employee (v : Int) (e : Employee) :
    Filter.matches { key := "id", value := v } e.toDoc = decide (e.ID = v) := by
  simp [Filter.matches, Employee.toDoc, List.lookup, scalar_int_beq]

theorem matches_emp_id_employee (v : Int) (e : Employee) :
    Filter.matches { key := "emp_id", value := v } e.toDoc = false := by
  simp [Filter.matches, Employee.toDoc, List.lookup]

theorem matches_emp_id_department (v : Int) (d : Department) :
    Filter.matches { key := "emp_id", value := v } d.toDoc = decide (d.EmpID = v) := by
  simp [Filter.matches, Department.toDoc, List.lookup, scalar_int_beq]

theorem matches_id_department (v : Int) (d : Department) :
    Filter.matches { key := "id", value := v } d.toDoc = false := by
  simp [Filter.matches, Department.toDoc, List.lookup]

theorem matches_emp_id_developer (v : Int) (d : Developer) :
    Filter.matches { key := "emp_id", value := v } d.toDoc = decide (d.EmpID = v) := by
  simp [Filter.matches, Developer.toDoc, List.lookup, scalar_int_beq]

theorem matches_id_developer (v : Int) (d : Developer) :
    Filter.matches { key := "id", value := v } d.toDoc = false := by
  simp [Filter.matches, Developer.toDoc, List.lookup]

theorem matches_emp_id_tester (v : Int) (t : Tester) :
    Filter.matches { key := "emp_id", value := v } t.toDoc = decide (t.EmpID = v) := by
  simp [Filter.matches, Tester.toDoc, List.lookup, scalar_int_beq]

theorem matches_id_tester (v : Int) (t : Tester) :
    Filter.matches { key := "id", value := v } t.toDoc = false := by
  simp [Filter.matches, Tester.toDoc, List.lookup]

theorem decodeEach_department (l : List Department) :
    decodeEach Department.ofDoc (l.map Department.toDoc) = some l := by
  induction l with
  | nil => rfl
  | cons d l ih =>
    simp [decodeEach, ih, Department.ofDoc, Department.toDoc, List.lookup, decodeStr, decodeInt]

theorem decodeEach_developer (l : List Developer) :
    decodeEach Developer.ofDoc (l.map Developer.toDoc) = some l := by
  induction l with
  | nil => rfl
  | cons d l ih =>
    simp [decodeEach, ih, Developer.ofDoc, Developer.toDoc, List.lookup, decodeStr, decodeInt]

theorem decodeEach_tester (l : List Tester) :
    decodeEach Tester.ofDoc (l.map Tester.toDoc) = some l := by
  induction l with
  | nil => rfl
  | cons d l ih =>
    simp [decodeEach, ih, Tester.ofDoc, Tester.toDoc, List.lookup, decodeStr, decodeInt]

/-- The three `$lookup` stages turn every employee document into its joined document. -/
theorem aggregate_eq (db : Database) :
    aggregate db false .employee pipeline = some (db.employees.map (joinedDoc db)) := by
  simp [aggregate, pipeline, Lookup.run, Database.docs, Database.get, Coll.toDoc,
    Employee.toDoc, AggDoc.setField, AggDoc.scalar, List.lookup, joinedDoc,
    List.filter_map, Function.comp_def, Department.toDoc, Developer.toDoc, Tester.toDoc,
    some_int_beq, scalar_int_beq]

/-- Decoding a joined document never fails and gives the joined profile. -/
theorem ofAggDoc_joinedDoc (db : Database) (e : Employee) :
    EmployeeFull.ofAggDoc (joinedDoc db e) = some (joinProfile db e) := by
  simp [EmployeeFull.ofAggDoc, joinedDoc, AggDoc.field, List.lookup, decodeInt, decodeStr,
    decodeDbl, decodeArr, decodeEach_department, decodeEach_developer, decodeEach_tester,
    joinProfile]

theorem readLoop_map (db : Database) (l : List Employee) :
    readLoop (l.map (joinedDoc db)) =
      ((l.filter (fun e => e.Salary.isFinite)).map (joinProfile db),
       (l.filter (fun e => !e.Salary.isFinite)).map (fun _ => "")) := by
  induction l with
  | nil => rfl
  | cons e l ih =>
    cases hf : e.Salary.isFinite <;>
      simp [readLoop, ih, ofAggDoc_joinedDoc, jsonEncodable, joinProfile, hf]

/-- The whole read operation when `Aggregate` succeeds: a profile is printed
for every employee record with a finite salary, an empty line for every other. -/
theorem read_eq (db : Database) :
    readEmployeesWithJoin false db =
      { profiles := (db.employees.filter (fun e => e.Salary.isFinite)).map (joinProfile db)
        out := "\n=== Employee Records with Full Details ===" ::
          (db.employees.filter (fun e => !e.Salary.isFinite)).map (fun _ => "")
        fatal := false } := by
  simp [readEmployeesWithJoin, aggregate_eq, readLoop_map]

/-- The store after an insert in which no `InsertOne` fails. -/
theorem insert_db (db : Database) (id : Int) (name : String) (salary : Float64)
    (deptName devLanguage testerLanguage : String) :
    (insertEmployee noFail db id name salary deptName devLanguage testerLanguage).db =
      { employees := db.employees ++ [{ ID := id, Name := name, Salary := salary }]
        departments := db.departments ++ [{ Name := deptName, EmpID := id }]
        developers := db.developers ++ [{ Language := devLanguage, EmpID := id }]
        testers := db.testers ++ [{ Language := testerLanguage, EmpID := id }] } := by
  simp [insertEmployee, noFail, Database.insertOne, Database.set, Database.get]

theorem eraseP_never {α : Type} (l : List α) : l.eraseP (fun _ => false) = l :=
  List.eraseP_of_forall_not (by simp)

/-- The store after a cascade delete in which no `DeleteOne` fails: the filter
on `emp_id` never matches an employee document and the filter on `id` never
matches a document of the three other collections. -/
theorem delete_db (db : Database) (empID : Int) :
    (deleteEmployee noDeleteFail db empID).db =
      { employees := db.employees.eraseP (fun e => decide (e.ID = empID))
        departments := db.departments.eraseP (fun d => decide (d.EmpID = empID))
        developers := db.developers.eraseP (fun d => decide (d.EmpID = empID))
        testers := db.testers.eraseP (fun t => decide (t.EmpID = empID)) } := by
  simp [deleteEmployee, collections, deleteStep, noDeleteFail, Database.deleteOne,
    Database.set, Database.get, Coll.toDoc, matches_id_employee, matches_emp_id_employee,
    matches_emp_id_department, matches_id_department, matches_emp_id_developer,
    matches_id_developer, matches_emp_id_tester, matches_id_tester, eraseP_never]


/-! ## Lemmas on lists -/

theorem eraseP_clean {α : Type} (p : α → Bool) (l : List α) (h : l.countP p ≤ 1) :
    ∀ a ∈ l.eraseP p, ¬ p a = true := by
  induction l with
  | nil => simp
  | cons x l ih =>
    by_cases hx : p x = true
    · have h0 : l.countP p = 0 := by
        simp [List.countP_cons_of_pos _ _ hx] at h
        simpa [List.countP_eq_zero] using h
      rw [List.eraseP_cons_of_pos hx]
      exact List.countP_eq_zero.mp h0
    · rw [List.countP_cons_of_neg _ _ hx] at h
      rw [List.eraseP_cons_of_neg hx]
      intro a ha
      rcases List.mem_cons.mp ha with rfl | ha
      · exact hx
      · exact ih h a ha

theorem eraseP_twice {α : Type} (p : α → Bool) (l : List α) (h : l.countP p ≤ 1) :
    (l.eraseP p).eraseP p = l.eraseP p :=
  List.eraseP_of_forall_not (eraseP_clean p l h)

theorem exists_first {α : Type} (p : α → Bool) (l : List α) (h : ∃ a ∈ l, p a = true) :
    ∃ pre a post, l = pre ++ a :: post ∧ p a = true ∧ ∀ x ∈ pre, ¬ p x = true := by
  obtain ⟨a, ha, hpa⟩ := h
  obtain ⟨b, l₁, l₂, h₁, h₂, h₃, _⟩ := List.exists_of_eraseP ha hpa
  exact ⟨l₁, b, l₂, h₃, h₂, h₁⟩

theorem removesFirst_eraseP {α : Type} (q : α → Prop) [DecidablePred q] (l : List α) :
    RemovesFirst q l (l.eraseP (fun a => decide (q a))) := by
  by_cases h : ∃ a ∈ l, q a
  · left
    obtain ⟨a, ha, hpa⟩ := h
    obtain ⟨b, l₁, l₂, h₁, h₂, h₃, h₄⟩ :=
      List.exists_of_eraseP (p := fun a => decide (q a)) ha (by simpa using hpa)
    exact ⟨l₁, b, l₂, h₃, by simpa using h₂, fun x hx => by simpa using h₁ x hx, h₄⟩
  · right
    have h' : ∀ x ∈ l, ¬ q x := fun x hx hq => h ⟨x, hx, hq⟩
    exact ⟨h', List.eraseP_of_forall_not (fun x hx => by simpa using h' x hx)⟩

theorem updateFirst_of_forall_not {α : Type} (p : α → Bool) (g : α → α) (l : List α)
    (h : ∀ a ∈ l, ¬ p a = true) : updateFirst p g l = l := by
  induction l with
  | nil => rfl
  | cons x l ih =>
    have hx : ¬ p x = true := h x (List.mem_cons_self _ _)
    simp [updateFirst, hx, ih (fun a ha => h a (List.mem_cons_of_mem _ ha))]

theorem updateFirst_append {α : Type} (p : α → Bool) (g : α → α) (pre post : List α) (a : α)
    (hpre : ∀ x ∈ pre, ¬ p x = true) (ha : p a = true) :
    updateFirst p g (pre ++ a :: post) = pre ++ g a :: post := by
  induction pre with
  | nil => simp [updateFirst, ha]
  | cons x pre ih =>
    have hx : ¬ p x = true := hpre x (List.mem_cons_self _ _)
    simp [updateFirst, hx, ih (fun y hy => hpre y (List.mem_cons_of_mem _ hy))]

/-- The store after an update whose `UpdateOne` does not fail. -/
theorem update_db (db : Database) (empID : Int) (newName : String) (newSalary : Float64) :
    (updateEmployee false db empID newName newSalary).db =
      { db with employees :=
          (updateFirst (fun e => decide (e.ID = empID))
            (fun e => Employee.mk e.ID newName newSalary) db.employees) } := by
  simp [updateEmployee, Database.updateOneEmployee, matches_id_employee, Employee.applySet,
    List.lookup]


/-! ## Claims -/

/-- C1 as stated fails: for an employee whose salary is a NaN, the insert on
the empty store followed by the read yields no profile at all; the read prints
an empty line in its place. -/
theorem C1_nan_salary_yields_no_profile :
    (readEmployeesWithJoin false
        (insertEmployee noFail Database.empty 1 "Alice" nan "IT" "Go" "JS").db).profiles = []
      ∧ (readEmployeesWithJoin false
        (insertEmployee noFail Database.empty 1 "Alice" nan "IT" "Go" "JS").db).out
          = ["\n=== Employee Records with Full Details ===", ""] := by
  decide

/-- C1 (amended): for an employee whose salary is a finite number, creating a
profile on the empty store and then reading yields exactly one profile; it
carries the inserted id, name and salary unchanged, and its Departments,
Developers and Testers each hold exactly the one inserted sub-record, with the
employee's id and the entered name or language. -/
theorem C1_insert_then_read (id : Int) (name : String) (salary : Float64)
    (deptName devLanguage testerLanguage : String) (hfin : salary.isFinite = true) :
    (readEmployeesWithJoin false
        (insertEmployee noFail Database.empty id name salary deptName devLanguage
          testerLanguage).db).profiles
      = [ { ID := id, Name := name, Salary := salary
            Departments := [{ Name := deptName, EmpID := id }]
            Developers := [{ Language := devLanguage, EmpID := id }]
            Testers := [{ Language := testerLanguage, EmpID := id }] } ] := by
  simp [read_eq, insert_db, Database.empty, joinProfile, hfin]

/-- Witness for C1 (amended): Alice with id 1 and salary 50000, department IT,
developer language Go, tester language JS. -/
theorem C1_insert_then_read_witness :
    Float64.isFinite ⟨0x40e86a0000000000⟩ = true
      ∧ (readEmployeesWithJoin false
          (insertEmployee noFail Database.empty 1 "Alice" ⟨0x40e86a0000000000⟩ "IT" "Go"
            "JS").db).profiles
        = [ { ID := 1, Name := "Alice", Salary := ⟨0x40e86a0000000000⟩
              Departments := [{ Name := "IT", EmpID := 1 }]
              Developers := [{ Language := "Go", EmpID := 1 }]
              Testers := [{ Language := "JS", EmpID := 1 }] } ] :=
  ⟨by decide,
   C1_insert_then_read 1 "Alice" ⟨0x40e86a0000000000⟩ "IT" "Go" "JS" (by decide)⟩

/-- C4 as stated fails: after the salary of employee 2 of the start-up data is
updated to positive infinity, the store holds three Employee records but the
read yields only two profiles, none of them for the id 2. -/
theorem C4_infinite_salary_drops_profile :
    (updateEmployee false loadSampleData 2 "Bob" posInf).db.employees.length = 3
      ∧ (readEmployeesWithJoin false
          (updateEmployee false loadSampleData 2 "Bob" posInf).db).profiles.length = 2
      ∧ ∀ p ∈ (readEmployeesWithJoin false
          (updateEmployee false loadSampleData 2 "Bob" posInf).db).profiles, p.ID ≠ 2 := by
  decide

/-- C4 (amended): for a store in which every Employee salary is a finite
number, reading is a left outer join on the employee id: the profiles are, in
collection order, one per Employee record, each with that record's id, name and
salary and with exactly the Department, Developer and Tester records whose
`emp_id` equals the employee's id (an empty sequence when there is none); the
read ends without a fatal error. -/
theorem C4_read_is_left_outer_join (db : Database)
    (hfin : ∀ e ∈ db.employees, e.Salary.isFinite = true) :
    (readEmployeesWithJoin false db).profiles =
        db.employees.map (fun e =>
          { ID := e.ID, Name := e.Name, Salary := e.Salary
            Departments := db.departments.filter (fun d => decide (d.EmpID = e.ID))
            Developers := db.developers.filter (fun d => decide (d.EmpID = e.ID))
            Testers := db.testers.filter (fun t => decide (t.EmpID = e.ID)) })
      ∧ (readEmployeesWithJoin false db).profiles.length = db.employees.length
      ∧ (readEmployeesWithJoin false db).fatal = false := by
  have hf : db.employees.filter (fun e => e.Salary.isFinite) = db.employees :=
    List.filter_eq_self.mpr hfin
  have hj : joinProfile db = fun e =>
      { ID := e.ID, Name := e.Name, Salary := e.Salary
        Departments := db.departments.filter (fun d => decide (d.EmpID = e.ID))
        Developers := db.developers.filter (fun d => decide (d.EmpID = e.ID))
        Testers := db.testers.filter (fun t => decide (t.EmpID = e.ID)) } := rfl
  rw [read_eq, hf, hj]
  simp

/-- Witness for C4 (amended): the start-up data, whose three salaries are finite. -/
theorem C4_read_is_left_outer_join_witness :
    (∀ e ∈ loadSampleData.employees, e.Salary.isFinite = true)
      ∧ (readEmployeesWithJoin false loadSampleData).profiles =
          loadSampleData.employees.map (fun e =>
            { ID := e.ID, Name := e.Name, Salary := e.Salary
              Departments := loadSampleData.departments.filter (fun d => decide (d.EmpID = e.ID))
              Developers := loadSampleData.developers.filter (fun d => decide (d.EmpID = e.ID))
              Testers := loadSampleData.testers.filter (fun t => decide (t.EmpID = e.ID)) })
      ∧ (readEmployeesWithJoin false loadSampleData).profiles.length
          = loadSampleData.employees.length
      ∧ (readEmployeesWithJoin false loadSampleData).fatal = false :=
  ⟨by decide, C4_read_is_left_outer_join loadSampleData (by decide)⟩

/-- C7: an insert performs no uniqueness check: it keeps every record of the
four collections and appends exactly one record to each, so each collection
grows by one, and after two inserts with the same id the Employee collection
holds both new records with that id after all the earlier ones. -/
theorem C7_insert_keeps_and_appends (db : Database) (id : Int) (name name2 : String)
    (salary salary2 : Float64) (dept dev tes dept2 dev2 tes2 : String) :
    (insertEmployee noFail db id name salary dept dev tes).db =
        { employees := db.employees ++ [{ ID := id, Name := name, Salary := salary }]
          departments := db.departments ++ [{ Name := dept, EmpID := id }]
          developers := db.developers ++ [{ Language := dev, EmpID := id }]
          testers := db.testers ++ [{ Language := tes, EmpID := id }] }
      ∧ (insertEmployee noFail db id name salary dept dev tes).db.employees.length
          = db.employees.length + 1
      ∧ (insertEmployee noFail db id name salary dept dev tes).db.departments.length
          = db.departments.length + 1
      ∧ (insertEmployee noFail db id name salary dept dev tes).db.developers.length
          = db.developers.length + 1
      ∧ (insertEmployee noFail db id name salary dept dev tes).db.testers.length
          = db.testers.length + 1
      ∧ (insertEmployee noFail (insertEmployee noFail db id name salary dept dev tes).db
            id name2 salary2 dept2 dev2 tes2).db.employees
          = db.employees ++ [{ ID := id, Name := name, Salary := salary },
                             { ID := id, Name := name2, Salary := salary2 }]
      ∧ (insertEmployee noFail (insertEmployee noFail db id name salary dept dev tes).db
            id name2 salary2 dept2 dev2 tes2).db.employees.countP (fun e => decide (e.ID = id))
          = db.employees.countP (fun e => decide (e.ID = id)) + 2 := by
  simp [insert_db, List.countP_append, List.countP_cons]

/-- C8: whichever of the four `InsertOne` calls fail, the insert issues all
four calls in turn, each collection afterwards holds the new record exactly
when its own call succeeded (nothing is rolled back and the earlier records
stay), and the operation ends with its success line and without a fatal
error. -/
theorem C8_insert_failures_independent (fail : Coll → Bool) (db : Database) (id : Int)
    (name : String) (salary : Float64) (dept dev tes : String) :
    (insertEmployee fail db id name salary dept dev tes).db =
        { employees := if fail .employee then db.employees
            else db.employees ++ [{ ID := id, Name := name, Salary := salary }]
          departments := if fail .department then db.departments
            else db.departments ++ [{ Name := dept, EmpID := id }]
          developers := if fail .developer then db.developers
            else db.developers ++ [{ Language := dev, EmpID := id }]
          testers := if fail .tester then db.testers
            else db.testers ++ [{ Language := tes, EmpID := id }] }
      ∧ (insertEmployee fail db id name salary dept dev tes).calls =
          [⟨"InsertOne", .employee⟩, ⟨"InsertOne", .department⟩,
           ⟨"InsertOne", .developer⟩, ⟨"InsertOne", .tester⟩]
      ∧ (insertEmployee fail db id name salary dept dev tes).out =
          ["✅ Employee inserted successfully"]
      ∧ (insertEmployee fail db id name salary dept dev tes).fatal = false := by
  refine ⟨?_, rfl, rfl, rfl⟩
  cases h1 : fail .employee <;> cases h2 : fail .department <;>
    cases h3 : fail .developer <;> cases h4 : fail .tester <;>
    simp [insertEmployee, Database.insertOne, Database.set, Database.get, h1, h2, h3, h4]


/-- C2 as stated fails: in a store with two Employee records of id 1, a
cascade delete of id 1 leaves the second one behind, and the following read
still shows a profile with id 1. -/
theorem C2_duplicate_survives_delete :
    (⟨1, "Alan", ⟨0x40e86a0000000000⟩⟩ : Employee)
        ∈ (deleteEmployee noDeleteFail duplicateStore 1).db.employees
      ∧ ∃ p ∈ (readEmployeesWithJoin false
                (deleteEmployee noDeleteFail duplicateStore 1).db).profiles, p.ID = 1 := by
  decide

/-- C2 (amended): when each of the four collections holds at most one record
whose id / emp_id equals the given id, after the cascade delete none of the four
collections holds such a record, and the following read yields no profile with
that id. -/
theorem C2_delete_clears_unique_id (db : Database) (empId : Int)
    (hE : db.employees.countP (fun e => decide (e.ID = empId)) ≤ 1)
    (hD : db.departments.countP (fun d => decide (d.EmpID = empId)) ≤ 1)
    (hV : db.developers.countP (fun d => decide (d.EmpID = empId)) ≤ 1)
    (hT : db.testers.countP (fun t => decide (t.EmpID = empId)) ≤ 1) :
    (∀ e ∈ (deleteEmployee noDeleteFail db empId).db.employees, e.ID ≠ empId)
      ∧ (∀ d ∈ (deleteEmployee noDeleteFail db empId).db.departments, d.EmpID ≠ empId)
      ∧ (∀ d ∈ (deleteEmployee noDeleteFail db empId).db.developers, d.EmpID ≠ empId)
      ∧ (∀ t ∈ (deleteEmployee noDeleteFail db empId).db.testers, t.EmpID ≠ empId)
      ∧ (∀ p ∈ (readEmployeesWithJoin false (deleteEmployee noDeleteFail db empId).db).profiles,
            p.ID ≠ empId) := by
  have kE := eraseP_clean _ _ hE
  have kD := eraseP_clean _ _ hD
  have kV := eraseP_clean _ _ hV
  have kT := eraseP_clean _ _ hT
  simp only [decide_eq_true_eq] at kE kD kV kT
  rw [read_eq, delete_db]
  refine ⟨kE, kD, kV, kT, ?_⟩
  intro p hp
  obtain ⟨e, he, rfl⟩ := List.mem_map.mp hp
  exact kE e (List.mem_filter.mp he).1

/-- Witness for C2 (amended): the start-up data and the id 1. -/
theorem C2_delete_clears_unique_id_witness :
    loadSampleData.employees.countP (fun e => decide (e.ID = 1)) ≤ 1
      ∧ loadSampleData.departments.countP (fun d => decide (d.EmpID = 1)) ≤ 1
      ∧ loadSampleData.developers.countP (fun d => decide (d.EmpID = 1)) ≤ 1
      ∧ loadSampleData.testers.countP (fun t => decide (t.EmpID = 1)) ≤ 1
      ∧ (∀ e ∈ (deleteEmployee noDeleteFail loadSampleData 1).db.employees, e.ID ≠ 1)
      ∧ (∀ d ∈ (deleteEmployee noDeleteFail loadSampleData 1).db.departments, d.EmpID ≠ 1)
      ∧ (∀ d ∈ (deleteEmployee noDeleteFail loadSampleData 1).db.developers, d.EmpID ≠ 1)
      ∧ (∀ t ∈ (deleteEmployee noDeleteFail loadSampleData 1).db.testers, t.EmpID ≠ 1)
      ∧ (∀ p ∈ (readEmployeesWithJoin false
                  (deleteEmployee noDeleteFail loadSampleData 1).db).profiles, p.ID ≠ 1) :=
  ⟨by decide, by decide, by decide, by decide,
   C2_delete_clears_unique_id loadSampleData 1 (by decide) (by decide) (by decide) (by decide)⟩

/-- C3 as stated fails: in a store with two records of id 1 in every
collection, the second cascade delete of id 1 removes the remaining records, so
two deletes do not leave the state of one delete. -/
theorem C3_second_delete_changes_store :
    (deleteEmployee noDeleteFail (deleteEmployee noDeleteFail duplicateStore 1).db 1).db
      ≠ (deleteEmployee noDeleteFail duplicateStore 1).db := by
  decide

/-- C3 (amended): when each of the four collections holds at most one record
whose id / emp_id equals the given id, a second cascade delete of that id leaves
the store exactly as the first one left it, and ends without a fatal error. -/
theorem C3_delete_idempotent_unique_id (db : Database) (empId : Int)
    (hE : db.employees.countP (fun e => decide (e.ID = empId)) ≤ 1)
    (hD : db.departments.countP (fun d => decide (d.EmpID = empId)) ≤ 1)
    (hV : db.developers.countP (fun d => decide (d.EmpID = empId)) ≤ 1)
    (hT : db.testers.countP (fun t => decide (t.EmpID = empId)) ≤ 1) :
    (deleteEmployee noDeleteFail (deleteEmployee noDeleteFail db empId).db empId).db
        = (deleteEmployee noDeleteFail db empId).db
      ∧ (deleteEmployee noDeleteFail (deleteEmployee noDeleteFail db empId).db empId).fatal
        = false := by
  refine ⟨?_, rfl⟩
  rw [delete_db, delete_db]
  simp only [eraseP_twice _ _ hE, eraseP_twice _ _ hD, eraseP_twice _ _ hV, eraseP_twice _ _ hT]

/-- Witness for C3 (amended): the start-up data and the id 2. -/
theorem C3_delete_idempotent_unique_id_witness :
    loadSampleData.employees.countP (fun e => decide (e.ID = 2)) ≤ 1
      ∧ loadSampleData.departments.countP (fun d => decide (d.EmpID = 2)) ≤ 1
      ∧ loadSampleData.developers.countP (fun d => decide (d.EmpID = 2)) ≤ 1
      ∧ loadSampleData.testers.countP (fun t => decide (t.EmpID = 2)) ≤ 1
      ∧ (deleteEmployee noDeleteFail (deleteEmployee noDeleteFail loadSampleData 2).db 2).db
        = (deleteEmployee noDeleteFail loadSampleData 2).db
      ∧ (deleteEmployee noDeleteFail (deleteEmployee noDeleteFail loadSampleData 2).db 2).fatal
        = false :=
  ⟨by decide, by decide, by decide, by decide,
   C3_delete_idempotent_unique_id loadSampleData 2 (by decide) (by decide) (by decide)
     (by decide)⟩

/-- C10: a cascade delete removes from each collection at most one record: from
Employee the first record whose id equals the given id, from Department,
Developer and Tester the first record whose emp_id equals it; where no record
matches the collection is unchanged, and all other records, further matching
ones included, stay in place. -/
theorem C10_delete_removes_first_match_only (db : Database) (empId : Int) :
    RemovesFirst (fun e : Employee => e.ID = empId) db.employees
        (deleteEmployee noDeleteFail db empId).db.employees
      ∧ RemovesFirst (fun d : Department => d.EmpID = empId) db.departments
        (deleteEmployee noDeleteFail db empId).db.departments
      ∧ RemovesFirst (fun d : Developer => d.EmpID = empId) db.developers
        (deleteEmployee noDeleteFail db empId).db.developers
      ∧ RemovesFirst (fun t : Tester => t.EmpID = empId) db.testers
        (deleteEmployee noDeleteFail db empId).db.testers := by
  rw [delete_db]
  exact ⟨removesFirst_eraseP _ _, removesFirst_eraseP _ _, removesFirst_eraseP _ _,
    removesFirst_eraseP _ _⟩

/-- C5: when no Employee record has the given id, an update leaves all four
collections exactly as they were and ends without a fatal error, whether or not
the `UpdateOne` call itself fails. -/
theorem C5_update_missing_id_is_noop (fail : Bool) (db : Database) (empId : Int)
    (newName : String) (newSalary : Float64) (h : ∀ e ∈ db.employees, e.ID ≠ empId) :
    (updateEmployee fail db empId newName newSalary).db = db
      ∧ (updateEmployee fail db empId newName newSalary).fatal = false := by
  refine ⟨?_, rfl⟩
  cases fail with
  | true => simp [updateEmployee, Database.updateOneEmployee]
  | false =>
    rw [update_db, updateFirst_of_forall_not]
    intro a ha
    simpa using h a ha

/-- Witness for C5: the start-up data and the unused id 99. -/
theorem C5_update_missing_id_is_noop_witness :
    (∀ e ∈ loadSampleData.employees, e.ID ≠ 99)
      ∧ (updateEmployee false loadSampleData 99 "Zed" ⟨0⟩).db = loadSampleData
      ∧ (updateEmployee false loadSampleData 99 "Zed" ⟨0⟩).fatal = false :=
  ⟨by decide, C5_update_missing_id_is_noop false loadSampleData 99 "Zed" ⟨0⟩ (by decide)⟩


/-- C6 as stated fails: after the employee with id 1 of the start-up data is
updated to the name Alicia and a NaN salary, the following read shows no
profile with the id 1, hence neither the new name nor the new salary. -/
theorem C6_nan_salary_update_not_shown :
    (∃ e ∈ loadSampleData.employees, e.ID = 1)
      ∧ ∀ p ∈ (readEmployeesWithJoin false
          (updateEmployee false loadSampleData 1 "Alicia" nan).db).profiles, p.ID ≠ 1 := by
  decide

/-- C6 (amended): when the Employee collection holds a record with the given
id, an update rewrites the first such record to the new name and salary with
its id kept, and leaves every other Employee record and the whole Department,
Developer and Tester collections as they were; when the new salary is a finite
number, a following read shows at that record's position the new name and
salary with the Department, Developer and Tester records of that id, which are
the sub-records the profile had in the read before the update (shown there when
the old salary was finite), after as many profiles as there are earlier
records with a finite salary, all other profiles unchanged. -/
theorem C6_update_changes_name_and_salary_only (db : Database) (empId : Int)
    (newName : String) (newSalary : Float64) (h : ∃ e ∈ db.employees, e.ID = empId) :
    ∃ pre e post,
      db.employees = pre ++ e :: post ∧ e.ID = empId ∧ (∀ x ∈ pre, x.ID ≠ empId)
      ∧ (updateEmployee false db empId newName newSalary).db =
          { employees := pre ++ { ID := empId, Name := newName, Salary := newSalary } :: post
            departments := db.departments
            developers := db.developers
            testers := db.testers }
      ∧ (updateEmployee false db empId newName newSalary).fatal = false
      ∧ ∃ before after,
          before.length = (pre.filter (fun x => x.Salary.isFinite)).length
          ∧ (e.Salary.isFinite = true →
            (readEmployeesWithJoin false db).profiles =
              before ++
                { ID := empId, Name := e.Name, Salary := e.Salary
                  Departments := db.departments.filter (fun d => decide (d.EmpID = empId))
                  Developers := db.developers.filter (fun d => decide (d.EmpID = empId))
                  Testers := db.testers.filter (fun t => decide (t.EmpID = empId)) } :: after)
          ∧ (newSalary.isFinite = true →
            (readEmployeesWithJoin false
                (updateEmployee false db empId newName newSalary).db).profiles =
              before ++
                { ID := empId, Name := newName, Salary := newSalary
                  Departments := db.departments.filter (fun d => decide (d.EmpID = empId))
                  Developers := db.developers.filter (fun d => decide (d.EmpID = empId))
                  Testers := db.testers.filter (fun t => decide (t.EmpID = empId)) } :: after) := by
  obtain ⟨pre, e, post, hsplit, he, hpre⟩ :=
    exists_first (fun e : Employee => decide (e.ID = empId)) db.employees
      (by simpa using h)
  have he' : e.ID = empId := by simpa using he
  have hpre' : ∀ x ∈ pre, x.ID ≠ empId := fun x hx => by simpa using hpre x hx
  have hdb : (updateEmployee false db empId newName newSalary).db =
      { employees := pre ++ { ID := empId, Name := newName, Salary := newSalary } :: post
        departments := db.departments
        developers := db.developers
        testers := db.testers } := by
    rw [update_db, hsplit, updateFirst_append _ _ pre post e hpre he, he']
  refine ⟨pre, e, post, hsplit, he', hpre', hdb, rfl, ?_⟩
  refine ⟨(pre.filter (fun x => x.Salary.isFinite)).map (joinProfile db),
    (post.filter (fun x => x.Salary.isFinite)).map (joinProfile db), ?_, ?_, ?_⟩
  · simp
  · intro hold
    rw [read_eq, hsplit]
    simp [List.filter_cons, hold, joinProfile, he']
  · intro hnew
    have hj : joinProfile
        { employees := pre ++ { ID := empId, Name := newName, Salary := newSalary } :: post
          departments := db.departments
          developers := db.developers
          testers := db.testers } = joinProfile db := rfl
    rw [hdb, read_eq]
    simp [List.filter_cons, hnew, hj, joinProfile]

/-- Witness for C6 (amended): the start-up data, id 1, new name Alicia and the
finite salary 55000. -/
theorem C6_update_changes_name_and_salary_only_witness :
    (∃ e ∈ loadSampleData.employees, e.ID = 1)
      ∧ Float64.isFinite ⟨0x40eadb0000000000⟩ = true
      ∧ ∃ pre e post,
        loadSampleData.employees = pre ++ e :: post ∧ e.ID = 1 ∧ (∀ x ∈ pre, x.ID ≠ 1)
        ∧ (updateEmployee false loadSampleData 1 "Alicia" ⟨0x40eadb0000000000⟩).db =
            { employees :=
                pre ++ { ID := 1, Name := "Alicia", Salary := ⟨0x40eadb0000000000⟩ } :: post
              departments := loadSampleData.departments
              developers := loadSampleData.developers
              testers := loadSampleData.testers }
        ∧ (updateEmployee false loadSampleData 1 "Alicia" ⟨0x40eadb0000000000⟩).fatal = false
        ∧ ∃ before after,
            before.length = (pre.filter (fun x => x.Salary.isFinite)).length
            ∧ (e.Salary.isFinite = true →
              (readEmployeesWithJoin false loadSampleData).profiles =
                before ++
                  { ID := 1, Name := e.Name, Salary := e.Salary
                    Departments :=
                      loadSampleData.departments.filter (fun d => decide (d.EmpID = 1))
                    Developers :=
                      loadSampleData.developers.filter (fun d => decide (d.EmpID = 1))
                    Testers :=
                      loadSampleData.testers.filter (fun t => decide (t.EmpID = 1)) } :: after)
            ∧ (Float64.isFinite ⟨0x40eadb0000000000⟩ = true →
              (readEmployeesWithJoin false
                  (updateEmployee false loadSampleData 1 "Alicia"
                    ⟨0x40eadb0000000000⟩).db).profiles =
                before ++
                  { ID := 1, Name := "Alicia", Salary := ⟨0x40eadb0000000000⟩
                    Departments :=
                      loadSampleData.departments.filter (fun d => decide (d.EmpID = 1))
                    Developers :=
                      loadSampleData.developers.filter (fun d => decide (d.EmpID = 1))
                    Testers :=
                      loadSampleData.testers.filter (fun t => decide (t.EmpID = 1)) } :: after) :=
  ⟨⟨⟨1, "Alice", ⟨0x40e86a0000000000⟩⟩, by decide, rfl⟩, by decide,
   C6_update_changes_name_and_salary_only loadSampleData 1 "Alicia" ⟨0x40eadb0000000000⟩
     ⟨⟨1, "Alice", ⟨0x40e86a0000000000⟩⟩, by decide, rfl⟩⟩

/-- C9: for every initial array of four Staff, `main` runs without a panic and
leaves in `team` the initial elements with exactly the four writes of
`CallByReference` applied (ID 2222 on element 0, the name Modified Person on
element 1, pay 8888.88 on element 2, pay 7777.77 on element 3); after
`CallByValue` the array is still shown with its initial content, so none of the
writes 1111, Updated Name, 9999.99 reaches the caller. -/
theorem C9_only_reference_writes_reach_team (s0 s1 s2 s3 : Staff) :
    mainFrom [s0, s1, s2, s3] =
      some
        { team := [ { s0 with ID := 2222 }, { s1 with FullName := "Modified Person" },
                    { s2 with Pay := pay_8888_88 }, { s3 with Pay := pay_7777_77 } ]
          shown :=
            [ ("Before CallByValue:", [s0, s1, s2, s3]),
              ("After CallByValue (No Change Expected):", [s0, s1, s2, s3]),
              ("After CallByReference (Changes Reflected):",
                [ { s0 with ID := 2222 }, { s1 with FullName := "Modified Person" },
                  { s2 with Pay := pay_8888_88 }, { s3 with Pay := pay_7777_77 } ]) ] } := by
  rfl

end Magna
